import Mathlib

/-!
Verification of the PyShame frontend pipeline UI.

Shallow embedding of the source files:
- `src/frontend/src/types/security.ts` (data model),
- `src/frontend/src/app/page.tsx` (state handlers: `buildInitialSteps`,
  `updateStep`, `handleSSEEvent`, `handleAnalyzeCode`, `handleFileUpload`),
- `src/frontend/src/components/AnalysisResults` (result render logic),
- `src/frontend/src/components/PipelineProgress.tsx` (`SemgrepFinding`
  severity colors, `handleDrop`),
as computable Lean definitions, followed by theorems settling the claims.
-/

namespace PyShame

/-- `AgentStatus` from `types/security.ts`:
`type AgentStatus = 'pending' | 'running' | 'complete'`. -/
inductive AgentStatus where
  | pending
  | running
  | complete
deriving DecidableEq, Repr, BEq

/-- `SemgrepFindingEvent` from `types/security.ts`. -/
structure SemgrepFindingEvent where
  rule_id : String
  message : String
  severity : String
  file : Option String
  line : Option Nat
deriving DecidableEq, Repr, BEq

/-- `HandoffEvent` from `types/security.ts` (`from` and `to` are Lean
keywords, rendered `from_` and `to_`). -/
structure HandoffEvent where
  from_ : String
  to_ : String
  summary : String
deriving DecidableEq, Repr, BEq

/-- `PipelineStep` from `types/security.ts`. Timestamps and elapsed
milliseconds are embedded as `Nat`. -/
structure PipelineStep where
  agent : String
  step : Nat
  status : AgentStatus
  thoughts : List String
  elapsedMs : Option Nat
  summary : Option String
  toolActivity : List String
  semgrepFindings : List SemgrepFindingEvent
  startedAt : Option Nat
deriving DecidableEq, Repr, BEq

/-- `StreamAgentEvent` from `types/security.ts`. -/
structure StreamAgentEvent where
  agent : String
  step : Nat
  total : Nat
deriving DecidableEq, Repr

/-- `StreamAgentCompleteEvent` from `types/security.ts`
(`elapsed_ms?: number` is an optional field). -/
structure StreamAgentCompleteEvent where
  agent : String
  step : Nat
  elapsed_ms : Option Nat
deriving DecidableEq, Repr

/-- `SecurityIssue` from `types/security.ts`. The severity arrives as a
JSON string at runtime (the render code carries a default branch for
unrecognised values), so it is embedded as `String`; the numeric
`cvss_score` is embedded as `Rat` (a JSON number). -/
structure SecurityIssue where
  title : String
  description : String
  code : String
  fix : String
  cvss_score : Rat
  severity : String
  source : String
deriving DecidableEq, Repr

/-- `ExploitScenario` from `types/security.ts`. -/
structure ExploitScenario where
  title : String
  attack_vector : String
  steps : List String
  impact : String
  likelihood : String
  related_issues : List String
deriving DecidableEq, Repr

/-- `AnalysisResponse` from `types/security.ts`. -/
structure AnalysisResponse where
  summary : String
  code_type : String
  risk_areas : List String
  issues : List SecurityIssue
  exploit_scenarios : List ExploitScenario
  remediation_priority : List String
deriving DecidableEq, Repr

/-- `DEFAULT_AGENTS` from `app/page.tsx`. -/
def DEFAULT_AGENTS : List String :=
  [ "Triage Agent"
  , "Static Analysis Agent"
  , "Code Review Agent"
  , "Red Team Agent"
  , "Blue Team Agent"
  , "Report Synthesizer" ]

/-- `buildInitialSteps` from `app/page.tsx`:
`DEFAULT_AGENTS.map((agent, i) => ({ agent, step: i + 1, status: 'pending',
thoughts: [], elapsedMs: null, summary: null, toolActivity: [],
semgrepFindings: [], startedAt: null }))`. -/
def buildInitialSteps : List PipelineStep :=
  DEFAULT_AGENTS.enum.map (fun p =>
    { agent := p.2
    , step := p.1 + 1
    , status := .pending
    , thoughts := []
    , elapsedMs := none
    , summary := none
    , toolActivity := []
    , semgrepFindings := []
    , startedAt := none })

/-- The component state of `Home` in `app/page.tsx`: the `useState` cells
`codeContent`, `fileName`, `analysisResults`, `isAnalyzing`, `error`,
`pipelineSteps` and `activeHandoff` (the handoff auto-clear timer is real
time and not part of the logical state). -/
structure AppState where
  codeContent : String
  fileName : String
  analysisResults : Option AnalysisResponse
  isAnalyzing : Bool
  error : Option String
  pipelineSteps : List PipelineStep
  activeHandoff : Option HandoffEvent
deriving DecidableEq, Repr

/-- The SSE events dispatched by the `switch` in `handleSSEEvent`
(`app/page.tsx`). Each constructor carries exactly the payload fields the
handler reads; `other` is any event type with no matching `case`, which
the `switch` ignores. -/
inductive SSEEvent where
  | agent_start (ev : StreamAgentEvent)
  | agent_thought (agent : String) (text : String)
  | tool_called (agent : String) (tool : String)
  | semgrep_finding (finding : SemgrepFindingEvent)
  | agent_complete (ev : StreamAgentCompleteEvent)
  | handoff (ev : HandoffEvent)
  | analysis_complete (data : AnalysisResponse)
  | error_event (message : Option String)
  | other
deriving DecidableEq, Repr

/-- `updateStep` from `app/page.tsx`:
`prev.map(s => (s.agent === agentName ? { ...s, ...updater(s) } : s))`.
The partial-object merge is embedded as a whole-record updater. -/
def updateStep (agentName : String) (updater : PipelineStep → PipelineStep)
    (steps : List PipelineStep) : List PipelineStep :=
  steps.map (fun s => if s.agent = agentName then updater s else s)

/-- The `data.message || 'Analysis failed'` fallback of the `error` case:
a missing or empty (falsy) message becomes `"Analysis failed"`. -/
def errorFallback (message : Option String) : String :=
  match message with
  | some m => if m = "" then "Analysis failed" else m
  | none => "Analysis failed"

/-- `handleSSEEvent` from `app/page.tsx`, as a state transformer.
`now` stands for `Date.now()` read in the `agent_start` case. -/
def handleSSEEvent (now : Nat) (ev : SSEEvent) (st : AppState) : AppState :=
  match ev with
  | .agent_start e =>
      let f := fun (s : PipelineStep) =>
        { s with status := AgentStatus.running, startedAt := some now }
      { st with pipelineSteps := updateStep e.agent f st.pipelineSteps }
  | .agent_thought agent text =>
      let f := fun (s : PipelineStep) =>
        { s with thoughts := s.thoughts ++ [text] }
      { st with pipelineSteps := updateStep agent f st.pipelineSteps }
  | .tool_called agent tool =>
      let f := fun (s : PipelineStep) =>
        { s with toolActivity := s.toolActivity ++ [tool] }
      { st with pipelineSteps := updateStep agent f st.pipelineSteps }
  | .semgrep_finding finding =>
      let f := fun (s : PipelineStep) =>
        { s with semgrepFindings := s.semgrepFindings ++ [finding] }
      { st with pipelineSteps :=
          updateStep "Static Analysis Agent" f st.pipelineSteps }
  | .agent_complete e =>
      let f := fun (s : PipelineStep) =>
        { s with status := AgentStatus.complete
               , elapsedMs := e.elapsed_ms
               , summary :=
                   match s.thoughts.getLast? with
                   | some t => some (t.take 80)
                   | none => none }
      { st with pipelineSteps := updateStep e.agent f st.pipelineSteps }
  | .handoff h =>
      { st with activeHandoff := some h }
  | .analysis_complete data =>
      let steps := st.pipelineSteps.map
        (fun s => { s with status := AgentStatus.complete })
      { st with pipelineSteps := steps, analysisResults := some data }
  | .error_event message =>
      { st with error := some (errorFallback message) }
  | .other => st

/-- Outcome of the synchronous guard prefix of `handleAnalyzeCode`
(`app/page.tsx`): either the empty-content alert-and-return, or the
state reset plus the POST request to `/api/analyze/stream` with the code
as body. -/
inductive AnalyzeAction where
  | rejectedEmpty
  | requestIssued (body : String)
deriving DecidableEq, Repr

/-- The synchronous prefix of `handleAnalyzeCode` from `app/page.tsx`:
`if (!codeContent) { alert(...); return; }` — the empty string is the
falsy string — otherwise it sets `isAnalyzing`, clears `error` and
`analysisResults`, resets the steps, and issues the request. -/
def handleAnalyzeCode (st : AppState) : AppState × AnalyzeAction :=
  if st.codeContent = "" then
    (st, .rejectedEmpty)
  else
    ({ st with isAnalyzing := true
             , error := none
             , analysisResults := none
             , pipelineSteps := buildInitialSteps }
    , .requestIssued st.codeContent)

/-- JavaScript `String.prototype.endsWith(p)`: `p` is a suffix of the
string. Embedded over the character list so it evaluates by kernel
reduction. -/
def jsEndsWith (s p : String) : Bool :=
  p.data.isSuffixOf s.data

/-- JavaScript `String.prototype.toLowerCase()` on the ASCII file names
the handlers see: lowercase every character. -/
def jsToLowerCase (s : String) : String :=
  ⟨s.data.map Char.toLower⟩

/-- A file handed to the upload control or the drop zone: only its name
and its text content matter to the handlers. -/
structure DroppedFile where
  name : String
  content : String
deriving DecidableEq, Repr

/-- Outcome of `handleFileUpload` (`app/page.tsx`): the file was read and
loaded into the editor state, or the `.py`-only alert was shown. -/
inductive UploadAction where
  | loaded
  | alerted
deriving DecidableEq, Repr

/-- `handleFileUpload` from `app/page.tsx`:
`if (file && file.name.endsWith('.py'))` load the file (set `fileName`
and, via the reader callback, `codeContent`, clearing results, error and
steps); `else alert('Please select a Python (.py) file')`. -/
def handleFileUpload (file : Option DroppedFile) (st : AppState) :
    AppState × UploadAction :=
  match file with
  | some f =>
      if jsEndsWith f.name ".py" then
        ({ st with fileName := f.name
                 , codeContent := f.content
                 , analysisResults := none
                 , error := none
                 , pipelineSteps := buildInitialSteps }
        , .loaded)
      else (st, .alerted)
  | none => (st, .alerted)

/-- Outcome of `handleDrop` (`PipelineProgress.tsx` source bundle,
`CodeInput`): the drop was silently ignored by the early `return`, or it
was forwarded to `onFileUpload` with the given result. -/
inductive DropAction where
  | ignored
  | uploaded (result : UploadAction)
deriving DecidableEq, Repr

/-- `handleDrop` from `CodeInput`:
`const file = e.dataTransfer.files?.[0];`
`if (!file || !file.name.toLowerCase().endsWith('.py')) return;`
then `onFileUpload(syntheticEv)` where `onFileUpload` is
`handleFileUpload` of `app/page.tsx`. -/
def handleDrop (files : List DroppedFile) (st : AppState) :
    AppState × DropAction :=
  match files.head? with
  | none => (st, .ignored)
  | some f =>
      if ¬ (jsEndsWith (jsToLowerCase f.name) ".py") then (st, .ignored)
      else
        let r := handleFileUpload (some f) st
        (r.1, .uploaded r.2)

/-- The `severityColors` record plus the `|| 'bg-gray-100 text-gray-600'`
default lookup of the `SemgrepFinding` component
(`PipelineProgress.tsx`). -/
def semgrepSeverityColor (severity : String) : String :=
  if severity = "ERROR" then "bg-red-100 text-red-700"
  else if severity = "WARNING" then "bg-amber-100 text-amber-700"
  else if severity = "INFO" then "bg-blue-100 text-blue-700"
  else if severity = "error" then "bg-red-100 text-red-700"
  else if severity = "warning" then "bg-amber-100 text-amber-700"
  else if severity = "info" then "bg-blue-100 text-blue-700"
  else "bg-gray-100 text-gray-600"

/-- `getSeverityStyles` from the `AnalysisResults` component. -/
def getSeverityStyles (severity : String) : String :=
  if severity = "critical" then "bg-red-100 text-red-800 border-red-200"
  else if severity = "high" then "bg-orange-100 text-orange-800 border-orange-200"
  else if severity = "medium" then "bg-amber-100 text-amber-800 border-amber-200"
  else if severity = "low" then "bg-emerald-100 text-emerald-800 border-emerald-200"
  else "bg-gray-100 text-gray-800 border-gray-200"

/-- Which blocks the `AnalysisResults` component renders, as booleans
derived from its props. -/
structure ResultsView where
  errorBannerShown : Bool
  placeholderShown : Bool
  resultsShown : Bool
  codeTypeTagShown : Bool
  issuesTableShown : Bool
  noStructuredIssuesNoteShown : Bool
deriving DecidableEq, Repr

/-- The render conditions of the `AnalysisResults` component:
`{error && <banner>}`; `{!analysisResults && !error && <placeholder>}`;
inside `{analysisResults && ...}`: the code-type tag when
`code_type && code_type !== 'unknown'` (the empty string is falsy), the
issues table when `issues.length > 0`, and otherwise the note that the
synthesizer "did not produce structured issue data". -/
def renderAnalysisResults (analysisResults : Option AnalysisResponse)
    (error : Option String) : ResultsView :=
  { errorBannerShown := error.isSome
  , placeholderShown := analysisResults.isNone && error.isNone
  , resultsShown := analysisResults.isSome
  , codeTypeTagShown :=
      match analysisResults with
      | some r => decide (r.code_type ≠ "") && decide (r.code_type ≠ "unknown")
      | none => false
  , issuesTableShown :=
      match analysisResults with
      | some r => decide (r.issues.length > 0)
      | none => false
  , noStructuredIssuesNoteShown :=
      match analysisResults with
      | some r => decide (¬ r.issues.length > 0)
      | none => false }

/-- The stage name a per-stage event dispatches on: the `agent` payload
field read by the `agent_start`, `agent_thought`, `tool_called` and
`agent_complete` cases of `handleSSEEvent`; `none` for the remaining
event kinds. -/
def perStageAgent : SSEEvent → Option String
  | .agent_start e => some e.agent
  | .agent_thought agent _ => some agent
  | .tool_called agent _ => some agent
  | .agent_complete e => some e.agent
  | _ => none

/-- The initial component state of `Home` (`app/page.tsx`): all `useState`
initial values. Used as a concrete fixture by the witness theorems. -/
def initialAppState : AppState :=
  { codeContent := ""
  , fileName := ""
  , analysisResults := none
  , isAnalyzing := false
  , error := none
  , pipelineSteps := buildInitialSteps
  , activeHandoff := none }

/-- A concrete degraded `AnalysisResponse` fixture: free-text summary
only, no structured fields. -/
def degradedResult : AnalysisResponse :=
  { summary := "The code evaluates untrusted input."
  , code_type := "unknown"
  , risk_areas := []
  , issues := []
  , exploit_scenarios := []
  , remediation_priority := [] }

/-- The initial state after an `agent_start` event for the Triage Agent:
its first stage is `running`, the rest `pending`. -/
def runningAppState : AppState :=
  handleSSEEvent 5
    (.agent_start { agent := "Triage Agent", step := 1, total := 6 })
    initialAppState

end PyShame

namespace PyShame

/-- `updateStep` touches indices pointwise: the step at index `i` is
replaced by the updated step when its agent matches and kept otherwise. -/
theorem updateStep_getElem? (agentName : String) (u : PipelineStep → PipelineStep)
    (l : List PipelineStep) (i : Nat) (old : PipelineStep)
    (hold : l[i]? = some old) :
    (updateStep agentName u l)[i]? =
      some (if old.agent = agentName then u old else old) := by
  simp [updateStep, List.getElem?_map, hold]

/-- A projection left unchanged by the updater is left unchanged by
`updateStep` across the whole list. -/
theorem updateStep_map_proj {β : Type} (proj : PipelineStep → β)
    (agentName : String) (u : PipelineStep → PipelineStep)
    (hu : ∀ s, proj (u s) = proj s) (l : List PipelineStep) :
    (updateStep agentName u l).map proj = l.map proj := by
  induction l with
  | nil => rfl
  | cons x xs ih =>
      by_cases hx : x.agent = agentName <;>
        simp [updateStep, hx, hu] at ih ⊢ <;> exact ih

/-- An updater that only ever appends to `thoughts` and `toolActivity`
yields an append-only `updateStep` at every index. -/
theorem updateStep_append_only (agentName : String)
    (u : PipelineStep → PipelineStep)
    (hu : ∀ s, ∃ t w, (u s).thoughts = s.thoughts ++ t ∧
            (u s).toolActivity = s.toolActivity ++ w)
    (l : List PipelineStep) (i : Nat) (old : PipelineStep)
    (hold : l[i]? = some old) :
    ∃ t w,
      ((updateStep agentName u l)[i]?).map PipelineStep.thoughts =
        some (old.thoughts ++ t) ∧
      ((updateStep agentName u l)[i]?).map PipelineStep.toolActivity =
        some (old.toolActivity ++ w) := by
  rw [updateStep_getElem? agentName u l i old hold]
  by_cases hx : old.agent = agentName
  · obtain ⟨t, w, h1, h2⟩ := hu old
    exact ⟨t, w, by simp [hx, h1], by simp [hx, h2]⟩
  · exact ⟨[], [], by simp [hx], by simp [hx]⟩

/-- C1: the pipeline has exactly 6 stages in the fixed order Triage,
Static Analysis, Code Review, Red Team, Blue Team, Report Synthesizer;
`buildInitialSteps` assigns contiguous ordinals 1..6 in that order, and
every stage starts `pending` with empty narration, tool-activity and
finding lists (and unset elapsed time, summary and start timestamp). -/
theorem buildInitialSteps_spec :
    buildInitialSteps.map PipelineStep.agent =
      [ "Triage Agent", "Static Analysis Agent", "Code Review Agent"
      , "Red Team Agent", "Blue Team Agent", "Report Synthesizer" ] ∧
    buildInitialSteps.map PipelineStep.step = [1, 2, 3, 4, 5, 6] ∧
    buildInitialSteps.all (fun s =>
      s.status == AgentStatus.pending && s.thoughts.isEmpty
        && s.toolActivity.isEmpty && s.semgrepFindings.isEmpty
        && s.elapsedMs.isNone && s.summary.isNone
        && s.startedAt.isNone) = true := by
  refine ⟨rfl, rfl, rfl⟩

/-- C2: after processing an `analysis_complete` event, every pipeline step
has status `complete` (regardless of its status before the event) and the
stored analysis result equals the event's payload; no event other than
`analysis_complete` changes the stored analysis result. -/
theorem analysisComplete_stores_result (now : Nat) (st : AppState)
    (data : AnalysisResponse) :
    (handleSSEEvent now (.analysis_complete data) st).pipelineSteps.all
      (fun s => s.status == AgentStatus.complete) = true ∧
    (handleSSEEvent now (.analysis_complete data) st).analysisResults = some data ∧
    ∀ ev : SSEEvent, (∀ d, ev ≠ SSEEvent.analysis_complete d) →
      (handleSSEEvent now ev st).analysisResults = st.analysisResults := by
  refine ⟨?_, rfl, ?_⟩
  · simp only [handleSSEEvent, List.all_map, Function.comp_def, List.all_eq_true]
    intro x _
    rfl
  · intro ev h
    cases ev with
    | analysis_complete d => exact absurd rfl (h d)
    | _ => rfl

/-- Witness for C2 at the initial state: an `analysis_complete` event
carrying the degraded fixture marks all six steps complete and stores the
payload, while an `error` event leaves the stored result untouched. -/
theorem analysisComplete_stores_result_witness :
    (handleSSEEvent 0 (.analysis_complete degradedResult) initialAppState).pipelineSteps.all
      (fun s => s.status == AgentStatus.complete) = true ∧
    (handleSSEEvent 0 (.analysis_complete degradedResult) initialAppState).analysisResults
      = some degradedResult ∧
    (handleSSEEvent 0 (.error_event (some "boom")) initialAppState).analysisResults
      = initialAppState.analysisResults := by
  obtain ⟨h1, h2, h3⟩ :=
    analysisComplete_stores_result 0 initialAppState degradedResult
  exact ⟨h1, h2, h3 (.error_event (some "boom")) (fun d h => SSEEvent.noConfusion h)⟩

/-- C3 counterexample: `AgentStatus` has no `failed` value and the `error`
case of `handleSSEEvent` does not touch any step. In a run whose first
stage is `running`, processing an `error` event records the message but
leaves that stage `running` — it does not reach any terminal failed
status. -/
theorem errorEvent_no_failed_status_counterexample :
    (handleSSEEvent 9 (.error_event (some "boom")) runningAppState).pipelineSteps.map
      PipelineStep.status =
      [AgentStatus.running, .pending, .pending, .pending, .pending, .pending] ∧
    (handleSSEEvent 9 (.error_event (some "boom")) runningAppState).error = some "boom" := by
  exact ⟨rfl, rfl⟩

/-- C3 amended: a stage's status ranges over the three values `pending`,
`running` and `complete` (the frontend has no `failed` status); processing
an `error` event only sets the error message — every stage's status (and
the whole step list) is left unchanged, so in particular no later stage's
status leaves `pending`. -/
theorem errorEvent_leaves_steps (now : Nat) (st : AppState)
    (message : Option String) :
    (handleSSEEvent now (.error_event message) st).pipelineSteps = st.pipelineSteps ∧
    (handleSSEEvent now (.error_event message) st).error
      = some (errorFallback message) ∧
    ∀ a : AgentStatus, a = .pending ∨ a = .running ∨ a = .complete := by
  refine ⟨rfl, rfl, ?_⟩
  intro a
  cases a with
  | pending => exact Or.inl rfl
  | running => exact Or.inr (Or.inl rfl)
  | complete => exact Or.inr (Or.inr rfl)

/-- Witness for C3's amended theorem at the running fixture. -/
theorem errorEvent_leaves_steps_witness :
    (handleSSEEvent 9 (.error_event none) runningAppState).pipelineSteps
      = runningAppState.pipelineSteps ∧
    (handleSSEEvent 9 (.error_event none) runningAppState).error
      = some "Analysis failed" := by
  obtain ⟨h1, h2, _⟩ := errorEvent_leaves_steps 9 runningAppState none
  exact ⟨h1, h2⟩

/-- C4: processing an `agent_complete` event for a stage sets that stage's
status to `complete`, its elapsed duration to the event's `elapsed_ms`
(absent field embedded as `none`), and its handoff summary to the first 80
characters of the stage's last narration line, or `none` if the stage
produced no narration; every other field of the step is kept. -/
theorem agentComplete_updates_step (now : Nat) (st : AppState)
    (e : StreamAgentCompleteEvent) (i : Nat) (old : PipelineStep)
    (hold : st.pipelineSteps[i]? = some old) (hagent : old.agent = e.agent) :
    (handleSSEEvent now (.agent_complete e) st).pipelineSteps[i]? =
      some { old with status := AgentStatus.complete
                    , elapsedMs := e.elapsed_ms
                    , summary := old.thoughts.getLast?.map (fun t => t.take 80) } := by
  simp only [handleSSEEvent, updateStep, List.getElem?_map, hold, Option.map_some]
  cases h : old.thoughts.getLast? <;> simp [h, hagent]

set_option maxRecDepth 4000 in
/-- Witness for C4: completing the Triage Agent after two narration lines
marks it complete with the event's elapsed time and a summary equal to
its last narration line truncated to 80 characters. -/
theorem agentComplete_updates_step_witness :
    (handleSSEEvent 7
        (.agent_complete { agent := "Triage Agent", step := 1, elapsed_ms := some 1200 })
        (handleSSEEvent 6 (.agent_thought "Triage Agent" "Looks like a Flask app.")
          (handleSSEEvent 5 (.agent_thought "Triage Agent" "Reading the code.")
            initialAppState))).pipelineSteps[0]? =
      some { agent := "Triage Agent"
           , step := 1
           , status := AgentStatus.complete
           , thoughts := ["Reading the code.", "Looks like a Flask app."]
           , elapsedMs := some 1200
           , summary := some "Looks like a Flask app."
           , toolActivity := []
           , semgrepFindings := []
           , startedAt := none } := by
  have h := agentComplete_updates_step 7
    (handleSSEEvent 6 (.agent_thought "Triage Agent" "Looks like a Flask app.")
      (handleSSEEvent 5 (.agent_thought "Triage Agent" "Reading the code.")
        initialAppState))
    { agent := "Triage Agent", step := 1, elapsed_ms := some 1200 }
    0
    { agent := "Triage Agent"
    , step := 1
    , status := AgentStatus.pending
    , thoughts := ["Reading the code.", "Looks like a Flask app."]
    , elapsedMs := none
    , summary := none
    , toolActivity := []
    , semgrepFindings := []
    , startedAt := none }
    (by decide) rfl
  simpa using h

/-- C5: submitting empty code content is rejected immediately with zero
stage events: when the code content is the empty string the synchronous
guard of `handleAnalyzeCode` returns without issuing a request and leaves
the whole state — pipeline steps, analysis results and error — unchanged. -/
theorem analyzeCode_rejects_empty (st : AppState) (h : st.codeContent = "") :
    handleAnalyzeCode st = (st, AnalyzeAction.rejectedEmpty) ∧
    (handleAnalyzeCode st).1.pipelineSteps = st.pipelineSteps ∧
    (handleAnalyzeCode st).1.analysisResults = st.analysisResults ∧
    (handleAnalyzeCode st).1.error = st.error := by
  have h1 : handleAnalyzeCode st = (st, AnalyzeAction.rejectedEmpty) := by
    simp [handleAnalyzeCode, h]
  exact ⟨h1, by rw [h1], by rw [h1], by rw [h1]⟩

/-- Witness for C5 at the initial state (empty editor, all steps pending,
no result, no error): the submission is rejected and the state stays the
initial state. -/
theorem analyzeCode_rejects_empty_witness :
    handleAnalyzeCode initialAppState = (initialAppState, AnalyzeAction.rejectedEmpty) ∧
    initialAppState.codeContent = "" ∧
    initialAppState.pipelineSteps.all (fun s => s.status == AgentStatus.pending) = true ∧
    initialAppState.analysisResults = none ∧
    initialAppState.error = none := by
  exact ⟨(analyzeCode_rejects_empty initialAppState rfl).1, rfl, by decide, rfl, rfl⟩

/-- C6: a degraded result (empty issues list) is presented as a note, not
a hard error: the no-structured-issues note is rendered and the issues
table is not, the error banner stays hidden whenever no error is set, and
a `code_type` equal to `"unknown"` is never displayed as a classification
tag. -/
theorem degradedResult_renders_note (r : AnalysisResponse) (err : Option String)
    (hissues : r.issues = []) :
    (renderAnalysisResults (some r) err).noStructuredIssuesNoteShown = true ∧
    (renderAnalysisResults (some r) err).issuesTableShown = false ∧
    (renderAnalysisResults (some r) none).errorBannerShown = false ∧
    (r.code_type = "unknown" →
      (renderAnalysisResults (some r) err).codeTypeTagShown = false) := by
  refine ⟨?_, ?_, rfl, ?_⟩
  · simp [renderAnalysisResults, hissues]
  · simp [renderAnalysisResults, hissues]
  · intro hct
    simp [renderAnalysisResults, hct]

/-- Witness for C6 at the degraded fixture (free text summary, empty
issues, `code_type = "unknown"`). -/
theorem degradedResult_renders_note_witness :
    (renderAnalysisResults (some degradedResult) none).noStructuredIssuesNoteShown = true ∧
    (renderAnalysisResults (some degradedResult) none).issuesTableShown = false ∧
    (renderAnalysisResults (some degradedResult) none).errorBannerShown = false ∧
    (renderAnalysisResults (some degradedResult) none).codeTypeTagShown = false := by
  obtain ⟨h1, h2, h3, h4⟩ := degradedResult_renders_note degradedResult none rfl
  exact ⟨h1, h2, h3, h4 rfl⟩

/-- C7 counterexample: the severity-to-style mapping of the
`SemgrepFinding` component is not case-insensitive — the mixed-case
variant `"Error"` falls to the default gray style while `"error"` maps to
the red error style. -/
theorem severityColor_mixed_case_counterexample :
    semgrepSeverityColor "Error" = "bg-gray-100 text-gray-600" ∧
    semgrepSeverityColor "error" = "bg-red-100 text-red-700" ∧
    semgrepSeverityColor "Error" ≠ semgrepSeverityColor "error" := by
  refine ⟨by decide, by decide, by decide⟩

/-- C7 amended: the mapping identifies exactly the all-uppercase and
all-lowercase spellings of each severity tier — `ERROR`/`error`,
`WARNING`/`warning` and `INFO`/`info` each share one style — while any
other spelling (such as `Error`) receives the default gray style. -/
theorem severityColor_upper_lower_agree :
    semgrepSeverityColor "ERROR" = semgrepSeverityColor "error" ∧
    semgrepSeverityColor "WARNING" = semgrepSeverityColor "warning" ∧
    semgrepSeverityColor "INFO" = semgrepSeverityColor "info" ∧
    semgrepSeverityColor "ERROR" = "bg-red-100 text-red-700" ∧
    semgrepSeverityColor "WARNING" = "bg-amber-100 text-amber-700" ∧
    semgrepSeverityColor "INFO" = "bg-blue-100 text-blue-700" ∧
    semgrepSeverityColor "Error" = "bg-gray-100 text-gray-600" ∧
    semgrepSeverityColor "Warning" = "bg-gray-100 text-gray-600" ∧
    semgrepSeverityColor "Info" = "bg-gray-100 text-gray-600" := by
  refine ⟨by decide, by decide, by decide, by decide, by decide, by decide,
    by decide, by decide, by decide⟩

/-- C8: a `semgrep_finding` event is appended to the findings list of the
step named "Static Analysis Agent" — which carries ordinal 2 in the
initial step list — and every other step is left unchanged; no event
other than `semgrep_finding` changes any step's findings list. -/
theorem semgrepFinding_targets_static_analysis (now : Nat) (st : AppState)
    (f : SemgrepFindingEvent) (i : Nat) (old : PipelineStep)
    (hold : st.pipelineSteps[i]? = some old) :
    (handleSSEEvent now (.semgrep_finding f) st).pipelineSteps[i]? =
      some (if old.agent = "Static Analysis Agent"
            then { old with semgrepFindings := old.semgrepFindings ++ [f] }
            else old) ∧
    (∀ ev : SSEEvent, (∀ g, ev ≠ SSEEvent.semgrep_finding g) →
      (handleSSEEvent now ev st).pipelineSteps.map PipelineStep.semgrepFindings =
        st.pipelineSteps.map PipelineStep.semgrepFindings) ∧
    (buildInitialSteps.map (fun s => (s.agent, s.step)))[1]? =
      some ("Static Analysis Agent", 2) := by
  refine ⟨?_, ?_, rfl⟩
  · simp only [handleSSEEvent]
    exact updateStep_getElem? _ _ _ _ _ hold
  · intro ev h
    cases ev with
    | semgrep_finding g => exact absurd rfl (h g)
    | agent_start e =>
        simp only [handleSSEEvent]
        apply updateStep_map_proj
        intro s
        rfl
    | agent_thought agent text =>
        simp only [handleSSEEvent]
        apply updateStep_map_proj
        intro s
        rfl
    | tool_called agent tool =>
        simp only [handleSSEEvent]
        apply updateStep_map_proj
        intro s
        rfl
    | agent_complete e =>
        simp only [handleSSEEvent]
        apply updateStep_map_proj
        intro s
        rfl
    | analysis_complete data =>
        simp [handleSSEEvent, List.map_map, Function.comp_def]
    | handoff hev => rfl
    | error_event message => rfl
    | other => rfl

/-- Witness for C8: in the running fixture, a finding reported while the
Triage Agent is running still lands on the Static Analysis step
(index 1), and the Triage step (index 0) is unchanged by it. -/
theorem semgrepFinding_targets_static_analysis_witness :
    (handleSSEEvent 0
        (.semgrep_finding
          { rule_id := "python.lang.security.audit.eval-detected"
          , message := "eval() detected"
          , severity := "ERROR", file := none, line := none })
        runningAppState).pipelineSteps[1]? =
      some { agent := "Static Analysis Agent"
           , step := 2
           , status := AgentStatus.pending
           , thoughts := []
           , elapsedMs := none
           , summary := none
           , toolActivity := []
           , semgrepFindings :=
               [ { rule_id := "python.lang.security.audit.eval-detected"
                 , message := "eval() detected"
                 , severity := "ERROR", file := none, line := none } ]
           , startedAt := none } ∧
    (handleSSEEvent 0 (.agent_thought "Triage Agent" "x")
        runningAppState).pipelineSteps.map PipelineStep.semgrepFindings =
      runningAppState.pipelineSteps.map PipelineStep.semgrepFindings := by
  obtain ⟨h1, h2, _⟩ := semgrepFinding_targets_static_analysis 0 runningAppState
    { rule_id := "python.lang.security.audit.eval-detected"
    , message := "eval() detected"
    , severity := "ERROR", file := none, line := none }
    1
    { agent := "Static Analysis Agent"
    , step := 2
    , status := AgentStatus.pending
    , thoughts := []
    , elapsedMs := none
    , summary := none
    , toolActivity := []
    , semgrepFindings := []
    , startedAt := none }
    (by decide)
  refine ⟨?_, h2 (.agent_thought "Triage Agent" "x") (fun g hg => SSEEvent.noConfusion hg)⟩
  simpa using h1

/-- C9: a per-stage event (`agent_start`, `agent_thought`, `tool_called`,
`agent_complete`) leaves every step whose agent name differs from the
event's stage name unchanged, and at every index the narration and
tool-activity lists of the resulting step extend the previous ones on the
right (existing entries and their order are preserved). -/
theorem perStageEvent_frame (now : Nat) (st : AppState) (ev : SSEEvent)
    (a : String) (ha : perStageAgent ev = some a) (i : Nat)
    (old : PipelineStep) (hold : st.pipelineSteps[i]? = some old) :
    (old.agent ≠ a → (handleSSEEvent now ev st).pipelineSteps[i]? = some old) ∧
    ∃ t w,
      ((handleSSEEvent now ev st).pipelineSteps[i]?).map PipelineStep.thoughts =
        some (old.thoughts ++ t) ∧
      ((handleSSEEvent now ev st).pipelineSteps[i]?).map PipelineStep.toolActivity =
        some (old.toolActivity ++ w) := by
  cases ev with
  | agent_start e =>
      cases ha
      constructor
      · intro hne
        simp only [handleSSEEvent]
        rw [updateStep_getElem? _ _ _ _ _ hold, if_neg hne]
      · simp only [handleSSEEvent]
        exact updateStep_append_only _ _
          (fun s => ⟨[], [], by simp, by simp⟩) _ _ _ hold
  | agent_thought agent text =>
      cases ha
      constructor
      · intro hne
        simp only [handleSSEEvent]
        rw [updateStep_getElem? _ _ _ _ _ hold, if_neg hne]
      · simp only [handleSSEEvent]
        exact updateStep_append_only _ _
          (fun s => ⟨[text], [], rfl, by simp⟩) _ _ _ hold
  | tool_called agent tool =>
      cases ha
      constructor
      · intro hne
        simp only [handleSSEEvent]
        rw [updateStep_getElem? _ _ _ _ _ hold, if_neg hne]
      · simp only [handleSSEEvent]
        exact updateStep_append_only _ _
          (fun s => ⟨[], [tool], by simp, rfl⟩) _ _ _ hold
  | agent_complete e =>
      cases ha
      constructor
      · intro hne
        simp only [handleSSEEvent]
        rw [updateStep_getElem? _ _ _ _ _ hold, if_neg hne]
      · simp only [handleSSEEvent]
        exact updateStep_append_only _ _
          (fun s => ⟨[], [], by simp, by simp⟩) _ _ _ hold
  | semgrep_finding g => cases ha
  | handoff hev => cases ha
  | analysis_complete data => cases ha
  | error_event message => cases ha
  | other => cases ha

/-- Witness for C9: a Triage narration event leaves the Static Analysis
step (whose agent name differs) exactly as it was, and extends the Triage
step's narration list on the right. -/
theorem perStageEvent_frame_witness :
    (handleSSEEvent 0 (.agent_thought "Triage Agent" "hello")
        initialAppState).pipelineSteps[1]? =
      some { agent := "Static Analysis Agent"
           , step := 2
           , status := AgentStatus.pending
           , thoughts := []
           , elapsedMs := none
           , summary := none
           , toolActivity := []
           , semgrepFindings := []
           , startedAt := none } ∧
    ∃ t w,
      ((handleSSEEvent 0 (.agent_thought "Triage Agent" "hello")
          initialAppState).pipelineSteps[0]?).map PipelineStep.thoughts =
        some ([] ++ t) ∧
      ((handleSSEEvent 0 (.agent_thought "Triage Agent" "hello")
          initialAppState).pipelineSteps[0]?).map PipelineStep.toolActivity =
        some ([] ++ w) := by
  constructor
  · exact (perStageEvent_frame 0 initialAppState
      (.agent_thought "Triage Agent" "hello") "Triage Agent" rfl 1
      { agent := "Static Analysis Agent"
      , step := 2
      , status := AgentStatus.pending
      , thoughts := []
      , elapsedMs := none
      , summary := none
      , toolActivity := []
      , semgrepFindings := []
      , startedAt := none }
      (by decide)).1 (by decide)
  · exact (perStageEvent_frame 0 initialAppState
      (.agent_thought "Triage Agent" "hello") "Triage Agent" rfl 0
      { agent := "Triage Agent"
      , step := 1
      , status := AgentStatus.pending
      , thoughts := []
      , elapsedMs := none
      , summary := none
      , toolActivity := []
      , semgrepFindings := []
      , startedAt := none }
      (by decide)).2

/-- C10 counterexample: a drag-and-dropped file named `APP.PY` passes the
drop handler's lowercased filter but is then rejected by the forwarded
upload handler's case-sensitive check — the state is unchanged and the
`.py`-only alert is shown, so drag-and-drop does not accept it. -/
theorem drop_uppercase_rejected_counterexample :
    handleDrop [{ name := "APP.PY", content := "print(1)" }] initialAppState =
      (initialAppState, DropAction.uploaded UploadAction.alerted) ∧
    jsEndsWith (jsToLowerCase "APP.PY") ".py" = true ∧
    jsEndsWith "APP.PY" ".py" = false := by
  refine ⟨by decide, by decide, by decide⟩

/-- C10 amended: the upload control accepts exactly the file names ending
in `.py` case-sensitively; the drop zone's own filter passes exactly the
names whose lowercased form ends in `.py` (silently ignoring the rest),
but it forwards the file to the same upload handler, so a dropped file is
loaded only when its name also passes the case-sensitive check — a name
like `APP.PY` passes the drop filter yet ends in the upload rejection
alert. -/
theorem drop_vs_upload_acceptance (st : AppState) (f : DroppedFile) :
    (jsEndsWith f.name ".py" = true →
      handleFileUpload (some f) st =
        ({ st with fileName := f.name
                 , codeContent := f.content
                 , analysisResults := none
                 , error := none
                 , pipelineSteps := buildInitialSteps }, UploadAction.loaded)) ∧
    (jsEndsWith f.name ".py" = false →
      handleFileUpload (some f) st = (st, UploadAction.alerted)) ∧
    (jsEndsWith (jsToLowerCase f.name) ".py" = false →
      handleDrop [f] st = (st, DropAction.ignored)) ∧
    (jsEndsWith (jsToLowerCase f.name) ".py" = true →
      jsEndsWith f.name ".py" = false →
      handleDrop [f] st = (st, DropAction.uploaded UploadAction.alerted)) ∧
    (jsEndsWith (jsToLowerCase f.name) ".py" = true →
      jsEndsWith f.name ".py" = true →
      handleDrop [f] st =
        ({ st with fileName := f.name
                 , codeContent := f.content
                 , analysisResults := none
                 , error := none
                 , pipelineSteps := buildInitialSteps }
        , DropAction.uploaded UploadAction.loaded)) := by
  refine ⟨?_, ?_, ?_, ?_, ?_⟩
  · intro h1
    simp [handleFileUpload, h1]
  · intro h1
    simp [handleFileUpload, h1]
  · intro h1
    simp [handleDrop, h1]
  · intro h1 h2
    simp [handleDrop, handleFileUpload, h1, h2]
  · intro h1 h2
    simp [handleDrop, handleFileUpload, h1, h2]

/-- Witness for C10's amended theorem at the names `APP.PY` and `app.py`:
the dropped uppercase name passes the drop filter but is rejected with the
alert, while the lowercase name is loaded. -/
theorem drop_vs_upload_acceptance_witness :
    handleDrop [{ name := "APP.PY", content := "c" }] initialAppState =
      (initialAppState, DropAction.uploaded UploadAction.alerted) ∧
    handleDrop [{ name := "app.py", content := "c" }] initialAppState =
      ({ initialAppState with
           fileName := "app.py"
         , codeContent := "c"
         , analysisResults := none
         , error := none
         , pipelineSteps := buildInitialSteps }
      , DropAction.uploaded UploadAction.loaded) := by
  constructor
  · exact (drop_vs_upload_acceptance initialAppState
      { name := "APP.PY", content := "c" }).2.2.2.1 (by decide) (by decide)
  · exact (drop_vs_upload_acceptance initialAppState
      { name := "app.py", content := "c" }).2.2.2.2 (by decide) (by decide)

end PyShame
